import Mathlib

/-!
# Verification of the cursor-agent CLI wrapper (`cursor_agent_api.py`)

A shallow embedding of the event-stream protocol engine of the repository:
the JSON event decoder (`CursorAgentClient._parse_event`), the command
builder (`_build_command`), the cancellable streaming response
(`StreamingResponse`), the single-shot query (`CursorAgentClient.query`),
and the conversation-session state (`ConversationSession.send`,
`finalize_stream`, `reset`).

Python values produced by `json.loads` are modelled by the `Json` inductive
(with `Json.null` playing the role of Python `None`); Python stdlib
`json.loads` is modelled by `json_loads`, a fuel-based recursive-descent
parser with the same acceptance behaviour on the inputs that matter here
(objects, arrays, strings with escapes, numbers, literals, whitespace;
duplicate object keys are kept in order and lookup takes the last, as
Python dict building does).
-/

/-- A JSON value, doubling as a model of the dynamic Python values that
`json.loads` returns (`Json.null` = Python `None`). A number is kept as an
unnormalized decimal mantissa/exponent pair denoting `mant * 10 ^ exp`
(Python would use int/float; only a number's truthiness matters to the
verified code, and that depends on the mantissa alone). -/
inductive Json where
  | null : Json
  | bool (b : Bool) : Json
  | num (mant : ℤ) (exp : ℤ) : Json
  | str (s : String) : Json
  | arr (xs : List Json) : Json
  | obj (kvs : List (String × Json)) : Json

/-- Python truthiness (`if x:`) of a decoded value. -/
def pyTruthy : Json → Bool
  | .null => false
  | .bool b => b
  | .num mant _ => decide (mant ≠ 0)
  | .str s => s ≠ ""
  | .arr xs => !xs.isEmpty
  | .obj kvs => !kvs.isEmpty

/-- Python `x == "lit"` where `x` is a decoded value: only an equal string
compares equal to a string literal. -/
def Json.isStr : Json → String → Bool
  | .str t, s => t = s
  | _, _ => false

/-- Python `dict.get(k)` on the field list of a decoded object: `none` when
the key is absent, and the *last* binding when the source text repeated the
key (Python dict building keeps the last). -/
def dictGet (kvs : List (String × Json)) (k : String) : Option Json :=
  kvs.foldl (fun acc kv => if kv.1 = k then some kv.2 else acc) none

/-- Python `dict.get(k, default)`. -/
def getd (kvs : List (String × Json)) (k : String) (dflt : Json) : Json :=
  (dictGet kvs k).getD dflt

/-- Python `k in dict`. -/
def containsKey (kvs : List (String × Json)) (k : String) : Bool :=
  kvs.any (fun kv => kv.1 = k)

/-! ## A model of Python `json.loads`

Recursive descent over the character list, with a fuel argument bounding the
nesting depth (any depth below the input length succeeds, so the top-level
entry point supplies `length + 1`). -/

/-- Skip JSON whitespace (space, tab, LF, CR — exactly `Char.isWhitespace`). -/
def skipWs : List Char → List Char
  | [] => []
  | c :: cs => if c.isWhitespace then skipWs cs else c :: cs

/-- Python `str.strip()` (whitespace at both ends), over the character
list so that proofs can evaluate it. -/
def pyStrip (s : String) : String :=
  String.mk ((skipWs (skipWs s.data).reverse).reverse)

/-- Hex digit value, for `\u` escapes. -/
def hexVal (c : Char) : Option Nat :=
  if '0' ≤ c ∧ c ≤ '9' then some (c.toNat - '0'.toNat)
  else if 'a' ≤ c ∧ c ≤ 'f' then some (c.toNat - 'a'.toNat + 10)
  else if 'A' ≤ c ∧ c ≤ 'F' then some (c.toNat - 'A'.toNat + 10)
  else none

/-- Body of a JSON string after the opening quote: returns the decoded
string and the rest of the input after the closing quote. Handles the JSON
escapes (`\u` without surrogate pairing, an abstraction of the stdlib) and
rejects unescaped control characters, as Python's strict decoder does. -/
def parseStrAux (acc : List Char) : List Char → Option (String × List Char)
  | [] => none
  | c :: cs =>
    if c = '"' then some (String.mk acc.reverse, cs)
    else if c = '\\' then
      match cs with
      | [] => none
      | e :: cs1 =>
        if e = '"' then parseStrAux ('"' :: acc) cs1
        else if e = '\\' then parseStrAux ('\\' :: acc) cs1
        else if e = '/' then parseStrAux ('/' :: acc) cs1
        else if e = 'b' then parseStrAux ('\x08' :: acc) cs1
        else if e = 'f' then parseStrAux ('\x0C' :: acc) cs1
        else if e = 'n' then parseStrAux ('\n' :: acc) cs1
        else if e = 'r' then parseStrAux ('\r' :: acc) cs1
        else if e = 't' then parseStrAux ('\t' :: acc) cs1
        else if e = 'u' then
          match cs1 with
          | h1 :: h2 :: h3 :: h4 :: cs2 =>
            match hexVal h1, hexVal h2, hexVal h3, hexVal h4 with
            | some a, some b, some c1, some d =>
              parseStrAux (Char.ofNat (((a * 16 + b) * 16 + c1) * 16 + d) :: acc) cs2
            | _, _, _, _ => none
          | _ => none
        else none
    else if c.toNat < 0x20 then none
    else parseStrAux (c :: acc) cs

/-- Numeric value of a list of decimal digit characters. -/
def natOfDigits (ds : List Char) : Nat :=
  ds.foldl (fun a c => a * 10 + (c.toNat - '0'.toNat)) 0

/-- Optional fraction part `.ddd` of a JSON number: its digit characters. -/
def parseFrac : List Char → Option (List Char × List Char)
  | '.' :: r =>
    let p := r.span (fun c => c.isDigit)
    if p.1.isEmpty then none
    else some (p.1, p.2)
  | cs => some ([], cs)

/-- Optional exponent part `e±ddd` of a JSON number. -/
def parseExp : List Char → Option (ℤ × List Char)
  | [] => some (0, [])
  | c :: r =>
    if c = 'e' ∨ c = 'E' then
      let sp : ℤ × List Char :=
        match r with
        | '+' :: t => (1, t)
        | '-' :: t => (-1, t)
        | _ => (1, r)
      let p := sp.2.span (fun ch => ch.isDigit)
      if p.1.isEmpty then none
      else some (sp.1 * (natOfDigits p.1 : ℤ), p.2)
    else some (0, c :: r)

/-- A JSON number (with JSON's no-leading-zero rule). -/
def parseNum (cs : List Char) : Option (Json × List Char) :=
  let sp : Bool × List Char :=
    match cs with
    | '-' :: r => (true, r)
    | _ => (false, cs)
  let p := sp.2.span (fun c => c.isDigit)
  match p.1 with
  | [] => none
  | d0 :: drest =>
    if d0 = '0' && !drest.isEmpty then none
    else
      match parseFrac p.2 with
      | none => none
      | some (fds, cs3) =>
        match parseExp cs3 with
        | none => none
        | some (e, cs4) =>
          let mant : ℤ := (natOfDigits (p.1 ++ fds) : ℤ)
          some (.num (if sp.1 then -mant else mant) (e - (fds.length : ℤ)), cs4)

mutual

/-- One JSON value, leading whitespace allowed. -/
def parseVal : Nat → List Char → Option (Json × List Char)
  | 0, _ => none
  | fuel + 1, cs =>
    match skipWs cs with
    | [] => none
    | 'n' :: 'u' :: 'l' :: 'l' :: r => some (.null, r)
    | 't' :: 'r' :: 'u' :: 'e' :: r => some (.bool true, r)
    | 'f' :: 'a' :: 'l' :: 's' :: 'e' :: r => some (.bool false, r)
    | '"' :: r =>
      match parseStrAux [] r with
      | some (s, r1) => some (.str s, r1)
      | none => none
    | '[' :: r =>
      match skipWs r with
      | ']' :: r1 => some (.arr [], r1)
      | cs1 => parseArrLoop fuel [] cs1
    | '{' :: r =>
      match skipWs r with
      | '}' :: r1 => some (.obj [], r1)
      | cs1 => parseObjLoop fuel [] cs1
    | cs1 => parseNum cs1

/-- Comma-separated array elements up to the closing bracket. -/
def parseArrLoop : Nat → List Json → List Char → Option (Json × List Char)
  | 0, _, _ => none
  | fuel + 1, acc, cs =>
    match parseVal fuel cs with
    | none => none
    | some (v, r) =>
      match skipWs r with
      | ',' :: r1 => parseArrLoop fuel (acc ++ [v]) r1
      | ']' :: r1 => some (.arr (acc ++ [v]), r1)
      | _ => none

/-- Comma-separated `"key": value` members up to the closing brace.
Duplicate keys are kept in order of appearance (lookup takes the last). -/
def parseObjLoop : Nat → List (String × Json) → List Char → Option (Json × List Char)
  | 0, _, _ => none
  | fuel + 1, acc, cs =>
    match skipWs cs with
    | '"' :: r =>
      match parseStrAux [] r with
      | none => none
      | some (k, r1) =>
        match skipWs r1 with
        | ':' :: r2 =>
          match parseVal fuel r2 with
          | none => none
          | some (v, r3) =>
            match skipWs r3 with
            | ',' :: r4 => parseObjLoop fuel (acc ++ [(k, v)]) r4
            | '}' :: r4 => some (.obj (acc ++ [(k, v)]), r4)
            | _ => none
        | _ => none
    | _ => none

end

/-- Model of Python `json.loads`: parse one JSON value, allow surrounding
whitespace, reject anything else (including the empty/whitespace-only
string, on which `json.loads` raises `JSONDecodeError`, modelled as
`none`). -/
def json_loads (s : String) : Option Json :=
  match parseVal (s.data.length + 1) s.data with
  | some (v, rest) => if (skipWs rest).isEmpty then some v else none
  | none => none

/-! ## The event model (`EventType`, `AgentEvent`, `CursorAgentClient._parse_event`) -/

/-- Enum `EventType`: event types emitted in stream-json mode. -/
inductive EventType where
  | SYSTEM_INIT
  | USER
  | THINKING_DELTA
  | THINKING_COMPLETED
  | ASSISTANT
  | ASSISTANT_DELTA
  | TOOL_CALL_STARTED
  | TOOL_CALL_COMPLETED
  | RESULT_SUCCESS
  | RESULT_ERROR
  | UNKNOWN
deriving DecidableEq, Repr

/-- Structure `AgentEvent`: an event from the cursor-agent stream. Fields that the
Python dataclass types as `Optional[...]` hold `Json.null` for `None`
(the decoder stores whatever `data.get(...)` returned). -/
structure AgentEvent where
  type : EventType
  raw_type : Json
  subtype : Json
  data : Json
  text : Json
  session_id : Json
  timestamp_ms : Json

/-- The event-kind dispatch of `_parse_event` (the if/elif chain over
`raw_type`/`subtype`, lines 248-267 of `cursor_agent_api.py`). -/
def classify (kvs : List (String × Json)) : EventType :=
  let raw_type := getd kvs "type" (.str "unknown")
  let subtype := dictGet kvs "subtype"
  if raw_type.isStr "system" && (subtype.getD .null).isStr "init" then .SYSTEM_INIT
  else if raw_type.isStr "user" then .USER
  else if raw_type.isStr "thinking" then
    (if (subtype.getD .null).isStr "delta" then .THINKING_DELTA else .THINKING_COMPLETED)
  else if raw_type.isStr "assistant" then
    -- In streaming mode, partial messages have timestamp_ms, final doesn't
    (if containsKey kvs "timestamp_ms" then .ASSISTANT_DELTA else .ASSISTANT)
  else if raw_type.isStr "result" then
    (if (subtype.getD .null).isStr "success" then .RESULT_SUCCESS else .RESULT_ERROR)
  else if raw_type.isStr "tool-call-started" then .TOOL_CALL_STARTED
  else if raw_type.isStr "tool-call-completed" then .TOOL_CALL_COMPLETED
  else .UNKNOWN

/-- The `for item in content` loop of `_parse_event`: the `text` field of the
first content item that is a dict whose `type` equals `"text"`; `Json.null`
(Python `None`) when no item matches. -/
def firstTextItem : List Json → Json
  | [] => .null
  | item :: rest =>
    match item with
    | .obj ik =>
      if (getd ik "type" .null).isStr "text" then getd ik "text" (.str "")
      else firstTextItem rest
    | _ => firstTextItem rest

/-- The text-extraction if/elif chain of `_parse_event` (lines 270-281):
top-level `text` field, else top-level `result` field, else the first
`type == "text"` item of a dict-valued `message`'s list-valued `content`. -/
def extractText (kvs : List (String × Json)) : Json :=
  if containsKey kvs "text" then getd kvs "text" .null
  else if containsKey kvs "result" then getd kvs "result" .null
  else
    match dictGet kvs "message" with
    | some (.obj m) =>
      (match getd m "content" (.arr []) with
       | .arr items => if items.isEmpty then .null else firstTextItem items
       | _ => .null)
    | _ => .null

/-- A content item that is a dict whose `type` tag equals `"text"`. -/
def isTextItem : Json → Bool
  | .obj ik => (getd ik "type" .null).isStr "text"
  | _ => false

/-- The `text` field (default `""`) of a content item known to be a dict. -/
def itemText : Json → Json
  | .obj ik => getd ik "text" (.str "")
  | _ => .null

/-- The `AgentEvent` constructed by `_parse_event` from a decoded JSON
object. -/
def buildEvent (kvs : List (String × Json)) : AgentEvent :=
  { type := classify kvs
    raw_type := getd kvs "type" (.str "unknown")
    subtype := getd kvs "subtype" .null
    data := .obj kvs
    text := extractText kvs
    session_id := getd kvs "session_id" .null
    timestamp_ms := getd kvs "timestamp_ms" .null }

/-- A Python exception escaping a modelled function. -/
inductive PyErr where
  | attributeError
deriving DecidableEq, Repr

/-- Model of `CursorAgentClient._parse_event`: parse a JSON line into an
`AgentEvent`. `json.loads` failure (`JSONDecodeError`) is caught and gives
`none`; but when the line is valid JSON that is not an object, the
subsequent `data.get(...)` calls raise `AttributeError`, which the source
does not catch — modelled by the `Except.error` branch. -/
def parse_event (line : String) : Except PyErr (Option AgentEvent) :=
  match json_loads (pyStrip line) with
  | none => .ok none
  | some (.obj kvs) => .ok (some (buildEvent kvs))
  | some _ => .error .attributeError

/-! ## `CursorAgentClient._build_command` -/

/-- Enum `OutputFormat`: output format for cursor-agent responses. -/
inductive OutputFormat where
  | TEXT
  | JSON
  | STREAM_JSON
deriving DecidableEq, Repr

/-- The `.value` of each `OutputFormat` enum member. -/
def OutputFormat.value : OutputFormat → String
  | .TEXT => "text"
  | .JSON => "json"
  | .STREAM_JSON => "stream-json"

/-- Structure `AgentConfig`: configuration for the cursor-agent client. -/
structure AgentConfig where
  workspace : Option String := none
  model : Option String := none
  force_approve : Bool := false
  approve_mcps : Bool := false
  api_key : Option String := none
  headers : List String := []
  agent_binary : String := "agent"

/-- Models `if x: cmd.extend([flag, x])` on an `Optional[str]` field:
Python truthiness, so `None` and the empty string both omit the pair. -/
def optFlag (flag : String) (v : Option String) : List String :=
  match v with
  | some s => if s ≠ "" then [flag, s] else []
  | none => []

/-- Model of `CursorAgentClient._build_command`: build the command-line argument
list for cursor-agent. The prompt is passed via stdin, never as an
argument. -/
def build_command (cfg : AgentConfig) (_prompt : String) (session_id : Option String)
    (output_format : OutputFormat) ( stream_partial : Bool)
    (mode : Option String) : List String :=
  [cfg.agent_binary, "--print"]
    ++ ["--output-format", output_format.value]
    ++ (if stream_partial && output_format == .STREAM_JSON then
          ["--stream-partial-output"] else [])
    ++ optFlag "--resume" session_id
    ++ optFlag "--workspace" cfg.workspace
    ++ optFlag "--model" cfg.model
    ++ (if cfg.force_approve then ["-f"] else [])
    ++ (if cfg.approve_mcps then ["--approve-mcps"] else [])
    ++ optFlag "--api-key" cfg.api_key
    ++ (cfg.headers.map (fun h => ["-H", h])).flatten
    ++ optFlag "--mode" mode

/-! ## `StreamingResponse`: iteration and cancellation

The mutable object is modelled by `StreamState` (its `_events` list and
`_cancelled` flag). The interleaving of the consumer's iteration with calls
to `cancel()` is modelled by a trace of `StreamAct` actions: each
`recvLine` is one pass of the `for line in stdout` loop body (which checks
`_cancelled` first), and each `cancelReq` is a call to `cancel(signal)`,
parameterized by whether `poll()` saw the process still running and whether
the 2-second graceful wait expired. -/

/-- The `_events`/`_cancelled` state of a `StreamingResponse`. -/
structure StreamState where
  events : List AgentEvent
  cancelled : Bool

/-- One pass of the `__iter__` loop body for one line of process output:
the `_cancelled` flag is checked before anything else (`break`), then the
line is stripped, skipped if empty, parsed by the injected `parse_event`
callback, and a parsed event is appended to `_events` and yielded. The
yielded events are exactly the appended ones. -/
def stepLine (parse : String → Option AgentEvent) (st : StreamState)
    (line : String) : StreamState :=
  if st.cancelled then st
  else
    let l := pyStrip line
    if l ≠ "" then
      match parse l with
      | some e => { st with events := st.events ++ [e] }
      | none => st
    else st

/-- Model of `StreamingResponse.cancel(signal)`: under `not self._cancelled and
self._process.poll() is None`, set the flag, send the signal, wait up to 2s
and escalate to `kill()` if that expires; otherwise do nothing. Returns the
new state, the list of signals sent via `send_signal`, and the number of
`kill()` calls. -/
def cancel (st : StreamState) (procRunning : Bool) (signal : ℤ)
    (graceExpires : Bool) : StreamState × List ℤ × Nat :=
  if !st.cancelled && procRunning then
    ({ st with cancelled := true }, [signal], if graceExpires then 1 else 0)
  else (st, [], 0)

/-- An interleaving step: one loop pass over a line of output, or one call
to `cancel`. -/
inductive StreamAct where
  | recvLine (line : String)
  | cancelReq (procRunning : Bool) (signal : ℤ) (graceExpires : Bool)

/-- Effect of one `StreamAct` on the stream state. -/
def stepAct (parse : String → Option AgentEvent) (st : StreamState) :
    StreamAct → StreamState
  | .recvLine l => stepLine parse st l
  | .cancelReq pr s g => (cancel st pr s g).1

/-- Run an interleaved trace of loop passes and cancel calls. -/
def runStream (parse : String → Option AgentEvent) (st : StreamState) :
    List StreamAct → StreamState
  | [] => st
  | a :: rest => runStream parse (stepAct parse st a) rest

/-! ## `AgentResult` and `CursorAgentClient.query` -/

/-- Structure `AgentResult`: result from a cursor-agent query. String-typed dataclass
fields hold whatever dynamic value the code stored, hence `Json`. -/
structure AgentResult where
  success : Bool
  result : Json
  session_id : Json
  request_id : Json := .null
  duration_ms : Json := .null
  duration_api_ms : Json := .null
  error : Json := .null
  events : List AgentEvent := []

/-- Python `x or ""` on a dynamic value. -/
def pyOrEmptyStr (j : Json) : Json := if pyTruthy j then j else .str ""

/-- Outcome of the `subprocess.run` call inside `query`: the wait timed
out (`TimeoutExpired`), some other exception was raised (its message
abstracted as a string), or the process completed with an exit code,
stdout and stderr. -/
inductive RunOutcome where
  | timeout
  | exc (msg : String)
  | completed (returncode : ℤ) (stdout : String) (stderr : String)

/-- Model of `CursorAgentClient.query`: convert the outcome of the subprocess run
into an `AgentResult`. Every exception path is caught in the source
(`TimeoutExpired`, then a blanket `except Exception`), so the model is a
total function into `AgentResult`. Host exception message details are
abstracted ("Failed to parse JSON", "AttributeError"). -/
def query (sid : Option String) (outcome : RunOutcome) : AgentResult :=
  match outcome with
  | .timeout =>
    { success := false, result := .str "", session_id := .str (sid.getD ""),
      error := .str "Request timed out" }
  | .exc msg =>
    { success := false, result := .str "", session_id := .str (sid.getD ""),
      error := .str msg }
  | .completed rc out err =>
    if rc ≠ 0 then
      { success := false, result := .str "", session_id := .str (sid.getD ""),
        error := .str (if err ≠ "" then err else "Exit code: " ++ toString rc) }
    else
      match json_loads (pyStrip out) with
      | some (.obj d) =>
        { success := (getd d "subtype" .null).isStr "success"
          result := getd d "result" (.str "")
          session_id := getd d "session_id" (.str "")
          request_id := getd d "request_id" .null
          duration_ms := getd d "duration_ms" .null
          duration_api_ms := getd d "duration_api_ms" .null
          error := if pyTruthy (getd d "is_error" .null) then getd d "error" .null
                   else .null }
      | some _ =>
        -- `data.get` on a non-dict payload raises AttributeError, caught by
        -- the blanket handler
        { success := false, result := .str "", session_id := .str (sid.getD ""),
          error := .str "AttributeError" }
      | none =>
        { success := false, result := .str out, session_id := .str (sid.getD ""),
          error := .str "Failed to parse JSON" }

/-! ## `ConversationSession` -/

/-- The `_session_id`/`_history` state of a `ConversationSession`
(`_session_id = Json.null` models Python `None`). -/
structure ConvState where
  session_id : Json
  history : List (String × AgentResult)

/-- Model of `ConversationSession.send`'s state update, given the `AgentResult`
returned by `client.query`: store a truthy returned token as the new
current token, then append `(prompt, result)` to history. -/
def send (st : ConvState) (prompt : String) (result : AgentResult) : ConvState :=
  let st1 := if pyTruthy result.session_id then { st with session_id := result.session_id }
             else st
  { st1 with history := st1.history ++ [(prompt, result)] }

/-- A sequence of `send` calls with their externally supplied results. -/
def sendMany (st : ConvState) : List (String × AgentResult) → ConvState
  | [] => st
  | (p, r) :: rest => sendMany (send st p r) rest

/-- The latest truthy `session_id` among a list of results, with fallback. -/
def lastObserved (t : Json) (rs : List AgentResult) : Json :=
  rs.foldl (fun acc r => if pyTruthy r.session_id then r.session_id else acc) t

/-- The test `e.type in (EventType.RESULT_SUCCESS, EventType.RESULT_ERROR)`. -/
def isOutcomeEvent (e : AgentEvent) : Bool :=
  e.type == .RESULT_SUCCESS || e.type == .RESULT_ERROR

/-- Model of `ConversationSession.finalize_stream`: update `_session_id` from every
truthy-token event in order (net effect: the last one wins), then search
from the end for the last outcome event; if found, synthesize an
`AgentResult` from it with the full event list attached and append it to
history, else return `none` and touch nothing further. -/
def finalize_stream (st : ConvState) (prompt : String)
    (events : List AgentEvent) : ConvState × Option AgentResult :=
  let tok := events.foldl
    (fun acc e => if pyTruthy e.session_id then e.session_id else acc) st.session_id
  let st1 : ConvState := { st with session_id := tok }
  match events.reverse.find? isOutcomeEvent with
  | some re =>
    let result : AgentResult :=
      { success := re.type == .RESULT_SUCCESS
        result := pyOrEmptyStr re.text
        session_id := pyOrEmptyStr st1.session_id
        events := events }
    ({ st1 with history := st1.history ++ [(prompt, result)] }, some result)
  | none => (st1, none)

/-- Model of `ConversationSession.reset`: start a new session. -/
def reset (_st : ConvState) : ConvState :=
  { session_id := .null, history := [] }

/-! ## Supporting lemmas -/

/-- The foldl computing `dictGet` yields `some` exactly when the key occurs
(or the accumulator already holds a value). -/
theorem dictGet_foldl_isSome (k : String) :
    ∀ (kvs : List (String × Json)) (acc : Option Json),
      (kvs.foldl (fun acc kv => if kv.1 = k then some kv.2 else acc) acc).isSome
        = (acc.isSome || kvs.any (fun kv => kv.1 = k)) := by
  intro kvs
  induction kvs with
  | nil => intro acc; simp
  | cons kv rest ih =>
    intro acc
    simp only [List.foldl_cons, List.any_cons, ih]
    by_cases h : kv.1 = k <;> simp [h, Bool.or_comm, Bool.or_assoc, Bool.or_left_comm]

/-- Membership `k in dict` agrees with `dict.get(k)` being present. -/
theorem containsKey_eq_isSome (kvs : List (String × Json)) (k : String) :
    containsKey kvs k = (dictGet kvs k).isSome := by
  simp [containsKey, dictGet, dictGet_foldl_isSome]

/-- The decoder's content loop picks exactly the first matching item, in
`List.find?` terms. -/
theorem firstTextItem_eq_find (items : List Json) :
    firstTextItem items =
      (match items.find? isTextItem with
       | some item => itemText item
       | none => .null) := by
  induction items with
  | nil => simp [firstTextItem]
  | cons item rest ih =>
    cases item with
    | obj ik =>
      by_cases h : (getd ik "type" .null).isStr "text" = true
      · simp [firstTextItem, h, List.find?, isTextItem, itemText]
      · simp only [Bool.not_eq_true] at h
        simp [firstTextItem, h, List.find?, isTextItem, ih]
    | null => simp [firstTextItem, List.find?, isTextItem, ih]
    | bool b => simp [firstTextItem, List.find?, isTextItem, ih]
    | num q => simp [firstTextItem, List.find?, isTextItem, ih]
    | str s => simp [firstTextItem, List.find?, isTextItem, ih]
    | arr xs => simp [firstTextItem, List.find?, isTextItem, ih]

theorem extractText_text (kvs : List (String × Json)) (v : Json)
    (h : dictGet kvs "text" = some v) : extractText kvs = v := by
  simp [extractText, containsKey_eq_isSome, h, getd]

theorem extractText_result (kvs : List (String × Json)) (v : Json)
    (h1 : dictGet kvs "text" = none) (h2 : dictGet kvs "result" = some v) :
    extractText kvs = v := by
  simp [extractText, containsKey_eq_isSome, h1, h2, getd]

/-! ## Claim theorems -/

/-- C2 (counterexample): the decoder does not handle every line without
raising — the line `5` is valid JSON but not an object, so the source's
`data.get("type", "unknown")` raises `AttributeError` (only
`json.JSONDecodeError` is caught), contradicting "for every input line of
text ... never raises". -/
theorem c2_counterexample : parse_event "5" = .error .attributeError := by rfl

/-- C2 (amended): for every blank/whitespace-only line and every line that
fails structural parsing, `_parse_event` returns "no event" without
raising, and every line that decodes to a JSON object yields an Event;
only a line that is valid JSON but not an object raises. -/
theorem c2_amended :
    (∀ line : String, pyStrip line = "" → parse_event line = .ok none) ∧
    (∀ line : String, json_loads (pyStrip line) = none → parse_event line = .ok none) ∧
    (∀ (line : String) (kvs : List (String × Json)),
      json_loads (pyStrip line) = some (.obj kvs) →
      parse_event line = .ok (some (buildEvent kvs))) := by
  refine ⟨fun line h => ?_, fun line h => ?_, fun line kvs h => ?_⟩
  · unfold parse_event
    rw [h]
    rfl
  · unfold parse_event
    rw [h]
  · unfold parse_event
    rw [h]

/-- C2 (witness): the amended claim at a whitespace-only line, a malformed
line, and an object line. -/
theorem c2_amended_witness :
    parse_event "   " = .ok none ∧
    parse_event "not valid json" = .ok none ∧
    parse_event "\x7b\"type\": \"user\"\x7d" = .ok (some (buildEvent [("type", .str "user")])) :=
  ⟨c2_amended.1 "   " (by rfl),
   c2_amended.2.1 "not valid json" (by rfl),
   c2_amended.2.2 "\x7b\"type\": \"user\"\x7d" [("type", .str "user")] (by rfl)⟩

/-- C5: for every line decoding to a JSON object whose raw kind is
`"assistant"`, the decoder yields `ASSISTANT_DELTA` exactly when a
`timestamp_ms` field is present and `ASSISTANT` exactly when it is absent;
exactly one of the two is selected. -/
theorem c5_assistant_discriminant (line : String) (kvs : List (String × Json))
    (h1 : json_loads (pyStrip line) = some (.obj kvs))
    (h2 : getd kvs "type" (.str "unknown") = .str "assistant") :
    parse_event line = .ok (some (buildEvent kvs)) ∧
    ((buildEvent kvs).type = .ASSISTANT_DELTA ↔ containsKey kvs "timestamp_ms" = true) ∧
    ((buildEvent kvs).type = .ASSISTANT ↔ containsKey kvs "timestamp_ms" = false) ∧
    ((buildEvent kvs).type = .ASSISTANT_DELTA ∨ (buildEvent kvs).type = .ASSISTANT) ∧
    ¬((buildEvent kvs).type = .ASSISTANT_DELTA ∧ (buildEvent kvs).type = .ASSISTANT) := by
  have hparse : parse_event line = .ok (some (buildEvent kvs)) := by
    unfold parse_event; rw [h1]
  have htype : (buildEvent kvs).type =
      (if containsKey kvs "timestamp_ms" then EventType.ASSISTANT_DELTA else .ASSISTANT) := by
    show classify kvs = _
    unfold classify
    rw [h2]
    simp [Json.isStr]
  refine ⟨hparse, ?_, ?_, ?_, ?_⟩ <;> rw [htype] <;>
    cases h : containsKey kvs "timestamp_ms" <;> simp

/-- C5 (witness): the discriminant at concrete assistant lines with and
without `timestamp_ms`. -/
theorem c5_assistant_discriminant_witness :
    parse_event "\x7b\"type\": \"assistant\", \"timestamp_ms\": 5\x7d" =
      .ok (some (buildEvent [("type", .str "assistant"), ("timestamp_ms", .num 5 0)])) ∧
    (buildEvent [("type", .str "assistant"), ("timestamp_ms", .num 5 0)]).type = .ASSISTANT_DELTA ∧
    parse_event "\x7b\"type\": \"assistant\"\x7d" =
      .ok (some (buildEvent [("type", .str "assistant")])) ∧
    (buildEvent [("type", .str "assistant")]).type = .ASSISTANT := by
  have h1 := c5_assistant_discriminant "\x7b\"type\": \"assistant\", \"timestamp_ms\": 5\x7d"
    [("type", .str "assistant"), ("timestamp_ms", .num 5 0)] (by rfl) (by rfl)
  have h2 := c5_assistant_discriminant "\x7b\"type\": \"assistant\"\x7d"
    [("type", .str "assistant")] (by rfl) (by rfl)
  exact ⟨h1.1, h1.2.1.2 (by rfl), h2.1, h2.2.2.1.2 (by rfl)⟩

/-- C7: display text is extracted in priority order (top-level `text`
field first, then top-level `result` field, then the text of the first
`type == "text"` item of a dict-valued `message`'s list-valued `content`),
and decoding the line
`{"type":"result","subtype":"success","result":"4","session_id":"abc"}`
yields an outcome-success Event with display text `"4"` and session token
`"abc"`. -/
theorem c7_display_text_priority :
    parse_event "\x7b\"type\":\"result\",\"subtype\":\"success\",\"result\":\"4\",\"session_id\":\"abc\"\x7d" =
      .ok (some
        { type := .RESULT_SUCCESS
          raw_type := .str "result"
          subtype := .str "success"
          data := .obj [("type", .str "result"), ("subtype", .str "success"),
                        ("result", .str "4"), ("session_id", .str "abc")]
          text := .str "4"
          session_id := .str "abc"
          timestamp_ms := .null }) ∧
    (∀ (kvs : List (String × Json)) (v : Json),
      dictGet kvs "text" = some v → extractText kvs = v) ∧
    (∀ (kvs : List (String × Json)) (v : Json),
      dictGet kvs "text" = none → dictGet kvs "result" = some v →
      extractText kvs = v) ∧
    (∀ (kvs m : List (String × Json)) (items : List Json),
      dictGet kvs "text" = none → dictGet kvs "result" = none →
      dictGet kvs "message" = some (.obj m) →
      getd m "content" (.arr []) = .arr items →
      extractText kvs =
        (match items.find? isTextItem with
         | some item => itemText item
         | none => .null)) := by
  refine ⟨by rfl, extractText_text, extractText_result, ?_⟩
  intro kvs m items h1 h2 h3 h4
  rw [← firstTextItem_eq_find]
  simp only [extractText, containsKey_eq_isSome, h1, h2, h3, h4,
    Option.isSome_none, Bool.false_eq_true, if_false]
  cases items with
  | nil => simp [firstTextItem]
  | cons a l => simp

/-- C7 (witness): the priority rules at concrete objects — a `text` field
wins over `result`, `result` is used when `text` is absent, and the
message-content path picks the first `type == "text"` item. -/
theorem c7_display_text_priority_witness :
    extractText [("text", .str "a"), ("result", .str "b")] = .str "a" ∧
    extractText [("result", .str "b")] = .str "b" ∧
    extractText [("message", .obj [("content",
      .arr [.obj [("type", .str "image")], .obj [("type", .str "text"), ("text", .str "hi")]])])] =
      .str "hi" :=
  ⟨c7_display_text_priority.2.1 _ _ (by rfl),
   c7_display_text_priority.2.2.1 _ _ (by rfl) (by rfl),
   c7_display_text_priority.2.2.2 _ _
     [.obj [("type", .str "image")], .obj [("type", .str "text"), ("text", .str "hi")]]
     (by rfl) (by rfl) (by rfl) (by rfl)⟩

/-- Helper `optFlag` never produces an element different from both the flag name
and the option value. -/
theorem not_mem_optFlag (x f : String) (v : Option String)
    (hf : x ≠ f) (hv : v ≠ some x) : x ∉ optFlag f v := by
  cases v with
  | none => simp [optFlag]
  | some s =>
    have hs : x ≠ s := fun hxs => hv (by rw [hxs])
    by_cases he : s = ""
    · simp [optFlag, he]
    · simp [optFlag, he, hf, hs]

/-- C6: the incremental-delivery flag `--stream-partial-output` appears in
the produced argv exactly when the output shape is `stream-json` and the
caller opted into partial delivery; in particular with
`stream_partial=true` but full-JSON output the flag is absent. The
hypotheses rule out the degenerate aliasing where a caller-supplied string
(binary name, resume token, workspace, model, api key, header, mode) is
itself the literal flag text — such a string would occur in argv as an
option value, not as the flag. -/
theorem c6_stream_partial_flag (cfg : AgentConfig) (prompt : String)
    (session_id : Option String) (output_format : OutputFormat)
    ( stream_partial : Bool) (mode : Option String)
    (h1 : cfg.agent_binary ≠ "--stream-partial-output")
    (h2 : session_id ≠ some "--stream-partial-output")
    (h3 : cfg.workspace ≠ some "--stream-partial-output")
    (h4 : cfg.model ≠ some "--stream-partial-output")
    (h5 : cfg.api_key ≠ some "--stream-partial-output")
    (h6 : "--stream-partial-output" ∉ cfg.headers)
    (h7 : mode ≠ some "--stream-partial-output") :
    ("--stream-partial-output" ∈
        build_command cfg prompt session_id output_format stream_partial mode
      ↔ stream_partial = true ∧ output_format = .STREAM_JSON) ∧
    ( stream_partial = true → output_format = .JSON →
      "--stream-partial-output" ∉
        build_command cfg prompt session_id output_format stream_partial mode) := by
  have hbin : "--stream-partial-output" ∉ [cfg.agent_binary, "--print"] := by
    intro hm
    simp only [List.mem_cons, List.mem_singleton, List.not_mem_nil, or_false] at hm
    rcases hm with h | h
    · exact (Ne.symm h1) h
    · exact absurd h (by decide)
  have hof : "--stream-partial-output" ∉ ["--output-format", output_format.value] := by
    intro hm
    simp only [List.mem_cons, List.mem_singleton, List.not_mem_nil, or_false] at hm
    rcases hm with h | h
    · exact absurd h (by decide)
    · cases output_format <;> exact absurd h (by decide)
  have hres := not_mem_optFlag "--stream-partial-output" "--resume" session_id (by decide) h2
  have hws := not_mem_optFlag "--stream-partial-output" "--workspace" cfg.workspace (by decide) h3
  have hmod := not_mem_optFlag "--stream-partial-output" "--model" cfg.model (by decide) h4
  have hkey := not_mem_optFlag "--stream-partial-output" "--api-key" cfg.api_key (by decide) h5
  have hmode := not_mem_optFlag "--stream-partial-output" "--mode" mode (by decide) h7
  have hforce : "--stream-partial-output" ∉ (if cfg.force_approve then ["-f"] else []) := by
    by_cases hb : cfg.force_approve <;> simp only [hb, if_true, if_false] <;> decide
  have happ : "--stream-partial-output" ∉ (if cfg.approve_mcps then ["--approve-mcps"] else []) := by
    by_cases hb : cfg.approve_mcps <;> simp only [hb, if_true, if_false] <;> decide
  have hhdr : "--stream-partial-output" ∉ (cfg.headers.map (fun h => ["-H", h])).flatten := by
    simp only [List.mem_flatten, List.mem_map]
    rintro ⟨l, ⟨h, hh, rfl⟩, hmem⟩
    simp only [List.mem_cons, List.mem_singleton, List.not_mem_nil, or_false] at hmem
    rcases hmem with h' | h'
    · exact absurd h' (by decide)
    · exact h6 (h' ▸ hh)
  have hmain : ("--stream-partial-output" ∈
      build_command cfg prompt session_id output_format stream_partial mode)
      ↔ (( stream_partial && (output_format == OutputFormat.STREAM_JSON)) = true) := by
    by_cases hc : ( stream_partial && (output_format == OutputFormat.STREAM_JSON)) = true
    · simp [build_command, hc]
    · have hcf : ( stream_partial && (output_format == OutputFormat.STREAM_JSON)) = false := by
        revert hc
        cases ( stream_partial && (output_format == OutputFormat.STREAM_JSON)) <;> simp
      have hval : "--stream-partial-output" ≠ output_format.value := by
        cases output_format <;> decide
      simp [build_command, hcf, hbin, hof, hres, hws, hmod, hkey, hmode, hforce, happ, hhdr]
      exact ⟨Ne.symm h1, hval⟩
  constructor
  · exact hmain.trans (by simp)
  · intro hs hf hmem
    subst hs hf
    rw [hmain] at hmem
    exact absurd hmem (by decide)

/-- C6 (witness): with a default config, full-JSON output plus
`stream_partial=true` omits the flag, stream-json output plus
`stream_partial=true` includes it. -/
theorem c6_stream_partial_flag_witness :
    "--stream-partial-output" ∉ build_command {} "hi" none .JSON true none ∧
    "--stream-partial-output" ∈ build_command {} "hi" none .STREAM_JSON true none := by
  have h := c6_stream_partial_flag {} "hi" none .JSON true none
    (by decide) (by decide) (by decide) (by decide) (by decide) (by decide) (by decide)
  have h2 := c6_stream_partial_flag {} "hi" none .STREAM_JSON true none
    (by decide) (by decide) (by decide) (by decide) (by decide) (by decide) (by decide)
  exact ⟨h.2 rfl rfl, h2.1.2 ⟨rfl, rfl⟩⟩

/-- Running a trace decomposes over concatenation. -/
theorem runStream_append (parse : String → Option AgentEvent)
    (l1 l2 : List StreamAct) :
    ∀ st : StreamState,
      runStream parse st (l1 ++ l2) = runStream parse (runStream parse st l1) l2 := by
  induction l1 with
  | nil => intro st; rfl
  | cons a rest ih =>
    intro st
    simp only [List.cons_append, runStream]
    exact ih (stepAct parse st a)

/-- One step never removes accumulated events: it appends zero or one. -/
theorem stepAct_events_grow (parse : String → Option AgentEvent)
    (st : StreamState) (a : StreamAct) :
    ∃ t, (stepAct parse st a).events = st.events ++ t := by
  cases a with
  | recvLine l =>
    show ∃ t, (stepLine parse st l).events = st.events ++ t
    unfold stepLine
    by_cases hc : st.cancelled
    · exact ⟨[], by simp [hc]⟩
    · by_cases hl : pyStrip l ≠ ""
      · cases hp : parse (pyStrip l) with
        | some e => exact ⟨[e], by simp [hc, hl, hp]⟩
        | none => exact ⟨[], by simp [hc, hl, hp]⟩
      · exact ⟨[], by simp [hc, hl]⟩
  | cancelReq pr s g =>
    show ∃ t, (cancel st pr s g).1.events = st.events ++ t
    unfold cancel
    by_cases hc : (!st.cancelled && pr) = true
    · exact ⟨[], by simp [hc]⟩
    · exact ⟨[], by simp [hc]⟩

/-- A whole trace never removes accumulated events. -/
theorem runStream_events_grow (parse : String → Option AgentEvent)
    (acts : List StreamAct) :
    ∀ st : StreamState, ∃ t, (runStream parse st acts).events = st.events ++ t := by
  induction acts with
  | nil => intro st; exact ⟨[], by simp [runStream]⟩
  | cons a rest ih =>
    intro st
    obtain ⟨t1, h1⟩ := stepAct_events_grow parse st a
    obtain ⟨t2, h2⟩ := ih (stepAct parse st a)
    exact ⟨t1 ++ t2, by simp [runStream, h2, h1]⟩

/-- Once the cancelled flag is set, every further action is a no-op: the
loop body breaks before parsing or yielding, and `cancel` refuses to act
again. -/
theorem stepAct_cancelled_frozen (parse : String → Option AgentEvent)
    (st : StreamState) (a : StreamAct) (h : st.cancelled = true) :
    stepAct parse st a = st := by
  cases a with
  | recvLine l => show stepLine parse st l = st; unfold stepLine; simp [h]
  | cancelReq pr s g => show (cancel st pr s g).1 = st; unfold cancel; simp [h]

/-- Once the cancelled flag is set, a whole further trace is a no-op. -/
theorem runStream_cancelled_frozen (parse : String → Option AgentEvent)
    (acts : List StreamAct) :
    ∀ st : StreamState, st.cancelled = true → runStream parse st acts = st := by
  induction acts with
  | nil => intro st _; rfl
  | cons a rest ih =>
    intro st h
    simp only [runStream, stepAct_cancelled_frozen parse st a h, ih st h]

/-- C1 (counterexample): "once cancel has been requested no further event
is yielded or appended" fails on the code. `cancel()` acts only under
`self._process.poll() is None`; requested after the process has already
exited (`procRunning = false`) it is a no-op that leaves the `_cancelled`
flag unset, so a decoded line still buffered in the pipe is afterwards
parsed, appended, and yielded: from a fresh stream, a cancel request
followed by one buffered line ends with one accumulated event, not
zero. -/
theorem c1_counterexample :
    (cancel ⟨[], false⟩ false 15 false).1.cancelled = false ∧
    (runStream (fun s => some (buildEvent [("type", .str s)])) ⟨[], false⟩
        [.cancelReq false 15 false]).events = [] ∧
    (runStream (fun s => some (buildEvent [("type", .str s)])) ⟨[], false⟩
        ([.cancelReq false 15 false] ++ [.recvLine "user"])).events =
      [buildEvent [("type", .str "user")]] :=
  ⟨rfl, rfl, rfl⟩

/-- C1 (amended): over any interleaving of output-line processing and
cancel calls, the accumulated event list (which is also exactly the
yielded sequence) only grows; a cancel requested while the process is
still running sets the cancelled flag; and once the flag has been set, no
later action yields or appends any further event — the loop checks the
flag before yielding each element, so remaining decoded lines are
discarded. (A cancel requested after the process has exited leaves the
flag unset and stops nothing; see the counterexample.) -/
theorem c1_stream_cancel_invariant :
    (∀ (parse : String → Option AgentEvent) (st : StreamState) (acts : List StreamAct),
      ∃ t, (runStream parse st acts).events = st.events ++ t) ∧
    (∀ (st : StreamState) (s : ℤ) (g : Bool),
      st.cancelled = false → (cancel st true s g).1.cancelled = true) ∧
    (∀ (parse : String → Option AgentEvent) (st : StreamState)
       (acts more : List StreamAct),
      (runStream parse st acts).cancelled = true →
      (runStream parse st (acts ++ more)).events = (runStream parse st acts).events) := by
  refine ⟨fun parse st acts => runStream_events_grow parse acts st,
          fun st s g h => ?_,
          fun parse st acts more h => ?_⟩
  · simp [cancel, h]
  · rw [runStream_append, runStream_cancelled_frozen parse more _ h]

/-- C1 (witness): a cancel request on a running stream sets the flag, and
after it a buffered decodable line adds nothing. -/
theorem c1_stream_cancel_invariant_witness :
    (cancel ⟨[], false⟩ true 15 false).1.cancelled = true ∧
    (runStream (fun s => some (buildEvent [("type", .str s)])) ⟨[], false⟩
        ([.cancelReq true 15 false] ++ [.recvLine "user"])).events =
      (runStream (fun s => some (buildEvent [("type", .str s)])) ⟨[], false⟩
        [.cancelReq true 15 false]).events :=
  ⟨c1_stream_cancel_invariant.2.1 ⟨[], false⟩ 15 false rfl,
   c1_stream_cancel_invariant.2.2 _ _ _ _ (by rfl)⟩

/-- C9: `cancel()` is idempotent. On a live, not-yet-cancelled stream the
first call sends exactly the one requested interrupt signal and sets the
flag; a second call (whatever the process or grace-timer state) observes
the flag, sends no signal, performs no kill, and leaves the stream state
unchanged, so the two calls together send exactly one interrupt. -/
theorem c9_cancel_idempotent (st : StreamState) (pr1 pr2 g1 g2 : Bool)
    (s1 s2 : ℤ) (h1 : st.cancelled = false) (h2 : pr1 = true) :
    (cancel st pr1 s1 g1).2.1 = [s1] ∧
    (cancel st pr1 s1 g1).1.cancelled = true ∧
    (cancel st pr1 s1 g1).1.events = st.events ∧
    cancel (cancel st pr1 s1 g1).1 pr2 s2 g2 = ((cancel st pr1 s1 g1).1, [], 0) ∧
    ((cancel st pr1 s1 g1).2.1 ++ (cancel (cancel st pr1 s1 g1).1 pr2 s2 g2).2.1).length = 1 := by
  subst h2
  simp [cancel, h1]

/-- C9 (witness): the idempotence facts at a concrete fresh stream. -/
theorem c9_cancel_idempotent_witness :
    (cancel ⟨[], false⟩ true 15 false).2.1 = [15] ∧
    cancel (cancel ⟨[], false⟩ true 15 false).1 true 9 true =
      ((cancel ⟨[], false⟩ true 15 false).1, [], 0) :=
  ⟨(c9_cancel_idempotent ⟨[], false⟩ true true false true 15 9 rfl rfl).1,
   (c9_cancel_idempotent ⟨[], false⟩ true true false true 15 9 rfl rfl).2.2.2.1⟩

/-- C8: when the blocking wait exceeds the timeout (`TimeoutExpired`),
`query` returns a failure `AgentResult` — `success=False`, empty result
text, and the timeout error message — to the caller instead of raising
(the model of `query` is a total function because the source catches
`TimeoutExpired` and every other exception). -/
theorem c8_query_timeout (sid : Option String) :
    (query sid .timeout).success = false ∧
    (query sid .timeout).result = .str "" ∧
    (query sid .timeout).error = .str "Request timed out" ∧
    query sid .timeout =
      { success := false, result := .str "", session_id := .str (sid.getD ""),
        error := .str "Request timed out" } := by
  refine ⟨rfl, rfl, rfl, rfl⟩

/-- Along any run of `send` calls, a truthy current token stays truthy and
always equals the latest truthy observation. -/
theorem sendMany_token (prs : List (String × AgentResult)) :
    ∀ st : ConvState, pyTruthy st.session_id = true →
      pyTruthy (sendMany st prs).session_id = true ∧
      (sendMany st prs).session_id = lastObserved st.session_id (prs.map Prod.snd) := by
  induction prs with
  | nil => intro st h; exact ⟨h, rfl⟩
  | cons pr rest ih =>
    intro st h
    obtain ⟨p, r⟩ := pr
    show pyTruthy (sendMany (send st p r) rest).session_id = true ∧
      (sendMany (send st p r) rest).session_id = _
    by_cases hr : pyTruthy r.session_id = true
    · have hsid : (send st p r).session_id = r.session_id := by simp [send, hr]
      obtain ⟨ih1, ih2⟩ := ih (send st p r) (by rw [hsid]; exact hr)
      refine ⟨ih1, ?_⟩
      rw [ih2, hsid]
      simp [lastObserved, hr]
    · have hr' : pyTruthy r.session_id = false := by
        revert hr; cases pyTruthy r.session_id <;> simp
      have hsid : (send st p r).session_id = st.session_id := by simp [send, hr']
      obtain ⟨ih1, ih2⟩ := ih (send st p r) (by rw [hsid]; exact h)
      refine ⟨ih1, ?_⟩
      rw [ih2, hsid]
      simp [lastObserved, hr']

/-- C3: the session-token ratchet. Once a `send` observes a result whose
token is truthy (non-empty), the current token after any sequence of later
`send` calls — successes, failures, or empty-token results alike — is
still truthy and equals the latest truthy observation; and only
`reset` clears the token and history unconditionally. -/
theorem c3_token_ratchet :
    (∀ (st : ConvState) (prompt : String) (result : AgentResult)
       (later : List (String × AgentResult)),
      pyTruthy result.session_id = true →
      pyTruthy (sendMany (send st prompt result) later).session_id = true ∧
      (sendMany (send st prompt result) later).session_id =
        lastObserved result.session_id (later.map Prod.snd)) ∧
    (∀ st : ConvState, (reset st).session_id = .null ∧ (reset st).history = []) := by
  constructor
  · intro st prompt result later h
    have hsid : (send st prompt result).session_id = result.session_id := by simp [send, h]
    obtain ⟨h1, h2⟩ := sendMany_token later (send st prompt result) (by rw [hsid]; exact h)
    exact ⟨h1, by rw [h2, hsid]⟩
  · intro st; exact ⟨rfl, rfl⟩

/-- C3 (witness): a send observing token `"abc"`, followed by an
empty-token failure and a truthy-token success, ends on the latest truthy
token `"xyz"`; with only empty-token calls afterwards it keeps `"abc"`. -/
theorem c3_token_ratchet_witness :
    pyTruthy (sendMany (send ⟨.null, []⟩ "p0" { success := true, result := .str "ok", session_id := .str "abc" })
        [("p1", { success := false, result := .str "", session_id := .str "" }),
         ("p2", { success := true, result := .str "ok", session_id := .str "xyz" })]).session_id = true ∧
    (sendMany (send ⟨.null, []⟩ "p0" { success := true, result := .str "ok", session_id := .str "abc" })
        [("p1", { success := false, result := .str "", session_id := .str "" }),
         ("p2", { success := true, result := .str "ok", session_id := .str "xyz" })]).session_id =
      lastObserved (.str "abc")
        [{ success := false, result := .str "", session_id := .str "" },
         { success := true, result := .str "ok", session_id := .str "xyz" }] :=
  c3_token_ratchet.1 ⟨.null, []⟩ "p0"
    { success := true, result := .str "ok", session_id := .str "abc" }
    [("p1", { success := false, result := .str "", session_id := .str "" }),
     ("p2", { success := true, result := .str "ok", session_id := .str "xyz" })] (by rfl)

/-- If no event satisfies the predicate, the reversed search finds
nothing. -/
theorem reverse_find_none (events : List AgentEvent) (p : AgentEvent → Bool)
    (h : ∀ e ∈ events, p e = false) : events.reverse.find? p = none := by
  apply List.find?_eq_none.2
  intro e he
  simp only [List.mem_reverse] at he
  simp [h e he]

/-- Searching the reversed list finds exactly the last matching element. -/
theorem reverse_find_last (pre post : List AgentEvent) (re : AgentEvent)
    (p : AgentEvent → Bool) (hre : p re = true)
    (hpost : ∀ e ∈ post, p e = false) :
    (pre ++ re :: post).reverse.find? p = some re := by
  rw [List.reverse_append, List.reverse_cons, List.append_assoc, List.find?_append,
    List.find?_append]
  have hnone : post.reverse.find? p = none := by
    apply List.find?_eq_none.2
    intro e he
    simp only [List.mem_reverse] at he
    simp [hpost e he]
  rw [hnone]
  simp [List.find?, hre]

/-- With no outcome event anywhere, `finalize_stream` returns absent and
leaves history untouched. -/
theorem finalize_stream_no_outcome (st : ConvState) (prompt : String)
    (events : List AgentEvent) (h : ∀ e ∈ events, isOutcomeEvent e = false) :
    (finalize_stream st prompt events).2 = none ∧
    (finalize_stream st prompt events).1.history = st.history := by
  unfold finalize_stream
  rw [reverse_find_none events isOutcomeEvent h]
  exact ⟨rfl, rfl⟩

/-- C4: `finalize_stream` on an accumulated event sequence with no outcome
event returns absent and leaves history unchanged; with an outcome event,
it synthesizes a `Result` from the last outcome event (searching from the
end), attaches the full accumulated event list to it, and appends
`(prompt, Result)` to history. -/
theorem c4_finalize_outcome :
    (∀ (st : ConvState) (prompt : String) (events : List AgentEvent),
      (∀ e ∈ events, isOutcomeEvent e = false) →
      (finalize_stream st prompt events).2 = none ∧
      (finalize_stream st prompt events).1.history = st.history) ∧
    (∀ (st : ConvState) (prompt : String) (pre post : List AgentEvent)
       (re : AgentEvent),
      isOutcomeEvent re = true → (∀ e ∈ post, isOutcomeEvent e = false) →
      ∃ res : AgentResult,
        (finalize_stream st prompt (pre ++ re :: post)).2 = some res ∧
        res.success = (re.type == .RESULT_SUCCESS) ∧
        res.result = pyOrEmptyStr re.text ∧
        res.events = pre ++ re :: post ∧
        (finalize_stream st prompt (pre ++ re :: post)).1.history =
          st.history ++ [(prompt, res)]) := by
  constructor
  · exact finalize_stream_no_outcome
  · intro st prompt pre post re hre hpost
    unfold finalize_stream
    rw [reverse_find_last pre post re isOutcomeEvent hre hpost]
    exact ⟨_, rfl, rfl, rfl, rfl, rfl⟩

/-- C4 (witness): a stream of non-outcome events finalizes to absent with
unchanged history; a stream ending in an outcome-error event after the
last outcome position finalizes to a synthesized failure result. -/
theorem c4_finalize_outcome_witness :
    (finalize_stream ⟨.null, []⟩ "p" [buildEvent [("type", .str "user")]]).2 = none ∧
    (finalize_stream ⟨.null, []⟩ "p" [buildEvent [("type", .str "user")]]).1.history = [] ∧
    (∃ res : AgentResult,
      (finalize_stream ⟨.null, []⟩ "p"
        ([] ++ buildEvent [("type", .str "result"), ("subtype", .str "error")] ::
          [buildEvent [("type", .str "user")]])).2 = some res ∧
      res.success = false ∧
      (finalize_stream ⟨.null, []⟩ "p"
        ([] ++ buildEvent [("type", .str "result"), ("subtype", .str "error")] ::
          [buildEvent [("type", .str "user")]])).1.history = [("p", res)]) := by
  have hA := c4_finalize_outcome.1 ⟨.null, []⟩ "p" [buildEvent [("type", .str "user")]]
    (by intro e he; simp only [List.mem_singleton] at he; subst he; rfl)
  have hB := c4_finalize_outcome.2 ⟨.null, []⟩ "p" []
    [buildEvent [("type", .str "user")]]
    (buildEvent [("type", .str "result"), ("subtype", .str "error")])
    (by rfl)
    (by intro e he; simp only [List.mem_singleton] at he; subst he; rfl)
  obtain ⟨res, hsome, hsucc, _hres, _hev, hhist⟩ := hB
  exact ⟨hA.1, hA.2, res, hsome, by rw [hsucc]; rfl, by rw [hhist]; rfl⟩

/-- The last-truthy-token fold of `finalize_stream` equals a search from
the end for the last token-bearing event. -/
theorem tokenFold_eq_reverse_find (events : List AgentEvent) :
    ∀ t : Json,
      events.foldl (fun acc e => if pyTruthy e.session_id then e.session_id else acc) t =
        (match events.reverse.find? (fun e => pyTruthy e.session_id) with
         | some e => e.session_id
         | none => t) := by
  induction events with
  | nil => intro t; rfl
  | cons e rest ih =>
    intro t
    rw [List.foldl_cons, ih]
    rw [List.reverse_cons, List.find?_append]
    cases hc : rest.reverse.find? (fun e => pyTruthy e.session_id) with
    | some e1 => simp [Option.or]
    | none =>
      cases ht : pyTruthy e.session_id <;> simp [Option.or, List.find?, ht]

/-- C10: even when `finalize_stream` finds no outcome event and returns
absent, it still ratchets the session token from the last token-bearing
event of the accumulated stream — the token update and the history append
are decoupled, so the history is left unchanged while the session token
changes (whenever that last observed token differs from the current
one). -/
theorem c10_finalize_token_update (st : ConvState) (prompt : String)
    (events : List AgentEvent) (e : AgentEvent)
    (hno : ∀ x ∈ events, isOutcomeEvent x = false)
    (hfind : events.reverse.find? (fun x => pyTruthy x.session_id) = some e) :
    (finalize_stream st prompt events).2 = none ∧
    (finalize_stream st prompt events).1.history = st.history ∧
    (finalize_stream st prompt events).1.session_id = e.session_id ∧
    (e.session_id ≠ st.session_id →
      (finalize_stream st prompt events).1.session_id ≠ st.session_id) := by
  have hres := finalize_stream_no_outcome st prompt events hno
  have htok : (finalize_stream st prompt events).1.session_id = e.session_id := by
    unfold finalize_stream
    rw [reverse_find_none events isOutcomeEvent hno]
    show events.foldl _ st.session_id = e.session_id
    rw [tokenFold_eq_reverse_find events st.session_id, hfind]
  exact ⟨hres.1, hres.2, htok, fun hne => by rw [htok]; exact hne⟩

/-- C10 (witness): a stream holding only a token-bearing init event (no
outcome event) finalizes to absent with unchanged history, yet the session
token becomes the stream's token. -/
theorem c10_finalize_token_update_witness :
    (finalize_stream ⟨.null, []⟩ "p"
      [buildEvent [("type", .str "system"), ("subtype", .str "init"),
                   ("session_id", .str "tok1")]]).2 = none ∧
    (finalize_stream ⟨.null, []⟩ "p"
      [buildEvent [("type", .str "system"), ("subtype", .str "init"),
                   ("session_id", .str "tok1")]]).1.history = [] ∧
    (finalize_stream ⟨.null, []⟩ "p"
      [buildEvent [("type", .str "system"), ("subtype", .str "init"),
                   ("session_id", .str "tok1")]]).1.session_id = .str "tok1" ∧
    (finalize_stream ⟨.null, []⟩ "p"
      [buildEvent [("type", .str "system"), ("subtype", .str "init"),
                   ("session_id", .str "tok1")]]).1.session_id ≠ .null := by
  have h := c10_finalize_token_update ⟨.null, []⟩ "p"
    [buildEvent [("type", .str "system"), ("subtype", .str "init"),
                 ("session_id", .str "tok1")]]
    (buildEvent [("type", .str "system"), ("subtype", .str "init"),
                 ("session_id", .str "tok1")])
    (by intro x hx; simp only [List.mem_singleton] at hx; subst hx; rfl)
    (by rfl)
  refine ⟨h.1, h.2.1, ?_, ?_⟩
  · rw [h.2.2.1]; rfl
  · rw [h.2.2.1]
    intro hx
    cases hx

/-- C8 (witness): the timeout outcome at a concrete resumed session. -/
theorem c8_query_timeout_witness :
    (query (some "sess") .timeout).success = false ∧
    (query (some "sess") .timeout).result = .str "" ∧
    (query (some "sess") .timeout).error = .str "Request timed out" :=
  ⟨(c8_query_timeout (some "sess")).1, (c8_query_timeout (some "sess")).2.1,
   (c8_query_timeout (some "sess")).2.2.1⟩
